/-
Verification of the FPL assistant's feature-engineering / dataset-synthesis /
training-and-loading subsystem.

The Python sources are shallowly embedded: numeric values are modelled over ℚ,
dictionaries over association lists, file systems as partial maps from path
strings to contents, and fallible operations return Except.  Each embedded
definition keeps the name and statement order of the source function it
models.
-/
import Mathlib

namespace FPL

/-! ## Raw value model

Raw records from the upstream provider hold heterogeneous values: numbers,
strings (including comma-decimal strings) and nulls.  `RawVal` models the
values the extraction code inspects with `isinstance(..., str)` / `is None`
checks. -/

inductive RawVal where
  | vnone
  | num (q : ℚ)
  | str (s : String)
deriving Repr, DecidableEq

/-- Model of Python `str.replace` for a single-character pattern (the only
form the source uses: `.replace(',', '.')`). -/
def pyReplace (s : String) (pat rep : Char) : String :=
  ⟨s.data.map fun c => if c = pat then rep else c⟩

/-- Digits of a character list read as a base-10 natural number. -/
def digitsToNat (l : List Char) : ℕ :=
  l.foldl (fun a c => a * 10 + (c.toNat - 48)) 0

/-- Unsigned part of Python `float(str)` on plain decimal literals:
digits, optionally followed by a dot and digits, returned as
(integer part, fraction digits value, fraction digit count).  Inputs the
repository feeds this (FPL percentage and form strings) have this shape;
anything else is a `ValueError`, modelled as `none`. -/
def parseUnsignedDecimal (l : List Char) : Option (ℕ × ℕ × ℕ) :=
  let int := l.takeWhile Char.isDigit
  let rest := l.dropWhile Char.isDigit
  match rest with
  | [] => if int.isEmpty then none else some (digitsToNat int, 0, 0)
  | '.' :: frac =>
    if frac.all Char.isDigit && !(int.isEmpty && frac.isEmpty) then
      some (digitsToNat int, digitsToNat frac, frac.length)
    else none
  | _ => none

/-- The rational value of a parsed (integer part, fraction, fraction length)
triple. -/
def decimalValue (t : ℕ × ℕ × ℕ) : ℚ :=
  (t.1 : ℚ) + (t.2.1 : ℚ) / (10 ^ t.2.2)

/-- Sign and digits of a Python float literal: optional sign then a decimal
literal.  The Bool flags a leading minus sign. -/
def pyFloatParsed (s : String) : Option (Bool × ℕ × ℕ × ℕ) :=
  match s.data with
  | '-' :: rest => (parseUnsignedDecimal rest).map (fun t => (true, t))
  | '+' :: rest => (parseUnsignedDecimal rest).map (fun t => (false, t))
  | l => (parseUnsignedDecimal l).map (fun t => (false, t))

/-- Model of Python `float` applied to a string: optional sign then a
decimal literal; failure (`ValueError`) is `none`. -/
def pyFloat (s : String) : Option ℚ :=
  (pyFloatParsed s).map fun t => if t.1 then -(decimalValue t.2) else decimalValue t.2

/-! ## Feature Extractor / Standardizer (`app/utils/feature_standardizer.py`)

`convert_player_to_features` reads a raw player dict through `.get` with
defaults.  The record below holds each retrieved value; a field's default
value is the `.get` default from the source.  Fields the code inspects
dynamically (`form`, `selected_by_percent`) are kept as `RawVal`;
`price` is `Option ℚ` because the code checks `if price is None`;
`now_cost` is `Option ℚ` because the code checks `"now_cost" in player_data`. -/

structure PlayerData where
  total_points : ℚ := 0
  minutes : ℚ := 0
  form : RawVal := .num 0
  price : Option ℚ := some 0
  now_cost : Option ℚ := none
  selected_by_percent : RawVal := .str "0.0"
  team_strength : ℚ := 100
  avg_fixture_difficulty : ℚ := 3
  goals_scored : ℚ := 0
  assists : ℚ := 0
  clean_sheets : ℚ := 0
  goals_conceded : ℚ := 0
  own_goals : ℚ := 0
  penalties_saved : ℚ := 0
  penalties_missed : ℚ := 0
  yellow_cards : ℚ := 0
  red_cards : ℚ := 0
  saves : ℚ := 0
  bonus : ℚ := 0
  bps : ℚ := 0
  influence : ℚ := 0
  creativity : ℚ := 0
  threat : ℚ := 0
  ict_index : ℚ := 0
  team_strength_attack_home : ℚ := 0
  team_strength_attack_away : ℚ := 0
  team_strength_defence_home : ℚ := 0
  team_strength_defence_away : ℚ := 0

/-- The canonical numeric feature vector (the 31 fields of the dict built by
`convert_player_to_features`). -/
structure Features where
  price : ℚ
  form : ℚ
  recent_form : ℚ
  points_per_game : ℚ
  points_per_90 : ℚ
  minutes : ℚ
  goals_scored : ℚ
  assists : ℚ
  clean_sheets : ℚ
  goals_conceded : ℚ
  own_goals : ℚ
  penalties_saved : ℚ
  penalties_missed : ℚ
  yellow_cards : ℚ
  red_cards : ℚ
  saves : ℚ
  bonus : ℚ
  bps : ℚ
  influence : ℚ
  creativity : ℚ
  threat : ℚ
  ict_index : ℚ
  xG : ℚ
  xA : ℚ
  ownership_percentage : ℚ
  avg_fixture_difficulty : ℚ
  team_strength : ℚ
  team_strength_attack_home : ℚ
  team_strength_attack_away : ℚ
  team_strength_defence_home : ℚ
  team_strength_defence_away : ℚ

/-- Embedding of `convert_player_to_features` (feature_standardizer.py,
lines 28-132), statement by statement. -/
def convert_player_to_features (p : PlayerData) : Features :=
  let total_points := p.total_points
  let minutes := p.minutes
  -- games_played = max(1, minutes // 60)
  let games_played : ℤ := max 1 ⌊minutes / 60⌋
  -- ppg = total_points / max(1, games_played) if games_played > 0 else 0
  let ppg : ℚ := if games_played > 0 then total_points / ((max 1 games_played : ℤ) : ℚ) else 0
  -- points_per_90 = (total_points / max(1, minutes)) * 90 if minutes > 0 else 0
  let points_per_90 : ℚ := if minutes > 0 then (total_points / max 1 minutes) * 90 else 0
  -- form: strings are float-coerced with ValueError -> 0.0; None -> 0.0
  let form : ℚ :=
    match p.form with
    | .str s => if s = "" then 0 else (pyFloat s).getD 0
    | .num q => q
    | .vnone => 0
  let recent_form := form
  -- price: get("price", 0); None -> 0; overridden by now_cost / 10.0 when present
  let price0 : ℚ := p.price.getD 0
  let price : ℚ :=
    match p.now_cost with
    | some c => c / 10
    | none => price0
  -- ownership: strings get ',' replaced by '.' then float, ValueError -> 0.0
  let ownership_percentage : ℚ :=
    match p.selected_by_percent with
    | .str s => (pyFloat (pyReplace s ',' '.')).getD 0
    | .num q => q
    | .vnone => 0
  -- xG / xA approximations
  let xG : ℚ := if games_played > 0 then p.goals_scored / ((max 1 games_played : ℤ) : ℚ) else 0
  let xA : ℚ := if games_played > 0 then p.assists / ((max 1 games_played : ℤ) : ℚ) else 0
  { price := price
    form := form
    recent_form := recent_form
    points_per_game := ppg
    points_per_90 := points_per_90
    minutes := p.minutes
    goals_scored := p.goals_scored
    assists := p.assists
    clean_sheets := p.clean_sheets
    goals_conceded := p.goals_conceded
    own_goals := p.own_goals
    penalties_saved := p.penalties_saved
    penalties_missed := p.penalties_missed
    yellow_cards := p.yellow_cards
    red_cards := p.red_cards
    saves := p.saves
    bonus := p.bonus
    bps := p.bps
    influence := p.influence
    creativity := p.creativity
    threat := p.threat
    ict_index := p.ict_index
    xG := xG
    xA := xA
    ownership_percentage := ownership_percentage
    avg_fixture_difficulty := p.avg_fixture_difficulty
    team_strength := p.team_strength
    team_strength_attack_home := p.team_strength_attack_home
    team_strength_attack_away := p.team_strength_attack_away
    team_strength_defence_home := p.team_strength_defence_home
    team_strength_defence_away := p.team_strength_defence_away }

/-- The feature dict as an ordered association list, in the key order of the
dict literal in the source (identical to `TRAINING_FEATURE_NAMES`). -/
def features_to_list (f : Features) : List (String × ℚ) :=
  [("price", f.price), ("form", f.form), ("recent_form", f.recent_form),
   ("points_per_game", f.points_per_game), ("points_per_90", f.points_per_90),
   ("minutes", f.minutes), ("goals_scored", f.goals_scored), ("assists", f.assists),
   ("clean_sheets", f.clean_sheets), ("goals_conceded", f.goals_conceded),
   ("own_goals", f.own_goals), ("penalties_saved", f.penalties_saved),
   ("penalties_missed", f.penalties_missed), ("yellow_cards", f.yellow_cards),
   ("red_cards", f.red_cards), ("saves", f.saves), ("bonus", f.bonus), ("bps", f.bps),
   ("influence", f.influence), ("creativity", f.creativity), ("threat", f.threat),
   ("ict_index", f.ict_index), ("xG", f.xG), ("xA", f.xA),
   ("ownership_percentage", f.ownership_percentage),
   ("avg_fixture_difficulty", f.avg_fixture_difficulty),
   ("team_strength", f.team_strength),
   ("team_strength_attack_home", f.team_strength_attack_home),
   ("team_strength_attack_away", f.team_strength_attack_away),
   ("team_strength_defence_home", f.team_strength_defence_home),
   ("team_strength_defence_away", f.team_strength_defence_away)]

/-- Conforming one feature row to a target schema: the single-player branch of
`prepare_features_for_model` builds `{n: features.get(n, 0.0) for n in names}`
and the list branch / `standardize_player_features_for_prediction` call
`df.reindex(columns=names, fill_value=0.0)`, which acts on each row the same
way. -/
def reindex_row (features : List (String × ℚ)) (names : List String) : List (String × ℚ) :=
  names.map fun n => (n, (features.lookup n).getD 0)

/-- Embedding of `prepare_features_for_model` for a single player dict
(feature_standardizer.py, lines 163-174).  The guard on line 168 is
`if model_feature_names:` — Python truthiness — so reindexing is skipped not
only when the argument is `None` but also when it is an empty list, in which
case the full 31-field feature dict is returned unchanged. -/
def prepare_features_for_model (p : PlayerData) (model_feature_names : Option (List String)) :
    List (String × ℚ) :=
  let features := features_to_list (convert_player_to_features p)
  match model_feature_names with
  | some names => if names.isEmpty then features else reindex_row features names
  | none => features

/-- Embedding of `standardize_player_features_for_prediction`
(feature_standardizer.py, lines 177-208).  On the typed record,
`convert_player_to_features` is total, so the per-player exception branch
that substitutes all-zero default features is not reachable in the model. -/
def standardize_player_features_for_prediction (players : List PlayerData)
    (model_feature_names : List String) : List (List (String × ℚ)) :=
  let features_list := players.map fun p => features_to_list (convert_player_to_features p)
  features_list.map fun row => reindex_row row model_feature_names

/-! ### `validate_features` (feature_standardizer.py, lines 221-247)

Feature dict values at this point may be arbitrary Python objects: finite
floats, NaN, infinities, None, or strings.  `FVal` models that domain. -/

inductive FVal where
  | num (q : ℚ)
  | nan
  | inf
  | ninf
  | vnone
  | str (s : String)
deriving Repr, DecidableEq

/-- The loop body of `validate_features` for one value:
`float(value) if value is not None else 0.0`, then NaN/inf replaced by 0,
with `ValueError`/`TypeError` caught and mapped to 0.0.
A string is accepted when `float` parses it (`float("nan")`/`float("inf")`
produce non-finite values which the NaN/inf check also maps to 0.0, the same
result as the parse-failure branch of this model). -/
def validate_value (v : FVal) : ℚ :=
  match v with
  | .vnone => 0
  | .num q => q
  | .nan => 0
  | .inf => 0
  | .ninf => 0
  | .str s => (pyFloat s).getD 0

/-- Embedding of `validate_features`: every entry's value is cleaned to a
finite float. -/
def validate_features (features : List (String × FVal)) : List (String × FVal) :=
  features.map fun kv => (kv.1, FVal.num (validate_value kv.2))

/-! ## Training-data feature extraction (`app/data_processing/training_data.py`)

`process_player_features` works on the extended player dict produced by
`get_player_extended_data`.  Required dict accesses (`player_data["minutes"]`)
are plain fields; `.get` accesses with defaults carry the default as the
field's default value. -/

/-- One history entry as read by the code: `game.get("minutes", 0)` and
`game.get("total_points", 0)`. -/
structure HistEntry where
  minutes : ℚ := 0
  total_points : ℚ := 0
deriving Repr, DecidableEq

/-- Extended player record for the training path. -/
structure ExtendedPlayerData where
  id : ℤ := 0
  first_name : String := ""
  second_name : String := ""
  team_name : String := "Unknown"
  element_type : ℤ := 0
  now_cost : ℚ := 0
  minutes : ℚ := 0
  total_points : ℚ := 0
  history : List HistEntry := []
  form : RawVal := .str "0.0"
  goals_scored : ℚ := 0
  assists : ℚ := 0
  clean_sheets : ℚ := 0
  goals_conceded : ℚ := 0
  own_goals : ℚ := 0
  penalties_saved : ℚ := 0
  penalties_missed : ℚ := 0
  yellow_cards : ℚ := 0
  red_cards : ℚ := 0
  saves : ℚ := 0
  bonus : ℚ := 0
  bps : ℚ := 0
  influence : ℚ := 0
  creativity : ℚ := 0
  threat : ℚ := 0
  ict_index : ℚ := 0
  selected_by_percent : RawVal := .str "0.0"
  avg_fixture_difficulty : ℚ := 3
  team_strength : ℚ := 1000
  team_strength_attack_home : ℚ := 0
  team_strength_attack_away : ℚ := 0
  team_strength_defence_home : ℚ := 0
  team_strength_defence_away : ℚ := 0

/-- Embedding of `get_position_name` (training_data.py, lines 165-181). -/
def get_position_name (position_id : ℤ) : String :=
  if position_id = 1 then "GK"
  else if position_id = 2 then "DEF"
  else if position_id = 3 then "MID"
  else if position_id = 4 then "FWD"
  else "Unknown"

/-- The feature dict built by `process_player_features`. -/
structure TrainFeatures where
  player_id : ℤ
  name : String
  team : String
  position : String
  price : ℚ
  form : ℚ
  recent_form : ℚ
  points_per_game : ℚ
  points_per_90 : ℚ
  minutes : ℚ
  goals_scored : ℚ
  assists : ℚ
  clean_sheets : ℚ
  goals_conceded : ℚ
  own_goals : ℚ
  penalties_saved : ℚ
  penalties_missed : ℚ
  yellow_cards : ℚ
  red_cards : ℚ
  saves : ℚ
  bonus : ℚ
  bps : ℚ
  influence : ℚ
  creativity : ℚ
  threat : ℚ
  ict_index : ℚ
  xG : ℚ
  xA : ℚ
  ownership_percentage : ℚ
  avg_fixture_difficulty : ℚ
  team_strength : ℚ
  team_strength_attack_home : ℚ
  team_strength_attack_away : ℚ
  team_strength_defence_home : ℚ
  team_strength_defence_away : ℚ

/-- `float(raw_form) if raw_form and raw_form != "" else 0.0`
(training_data.py, line 98): the coercion has no try/except, so a
non-numeric non-empty string raises `ValueError`. -/
def train_form_value (raw_form : RawVal) : Except String ℚ :=
  match raw_form with
  | .str s =>
    if s = "" then .ok 0
    else match pyFloat s with
      | some q => .ok q
      | none => .error "ValueError"
  | .num q => if q = 0 then .ok 0 else .ok q
  | .vnone => .ok 0

/-- `float(player_data.get("selected_by_percent", "0.0").replace(',', '.'))`
(training_data.py, line 118): no try/except; a non-string value has no
`.replace` (`AttributeError`) and an unparseable string raises
`ValueError`. -/
def train_ownership_value (raw : RawVal) : Except String ℚ :=
  match raw with
  | .str s =>
    match pyFloat (pyReplace s ',' '.') with
    | some q => .ok q
    | none => .error "ValueError"
  | _ => .error "AttributeError"

/-- Embedding of `process_player_features` (training_data.py, lines 75-162).
The `Except` propagates the uncaught exceptions of the form and ownership
coercions, in source statement order (form on line 98 before ownership on
line 118). -/
def process_player_features (p : ExtendedPlayerData) : Except String TrainFeatures := do
  let minutes := p.minutes
  let total_points := p.total_points
  -- games_played = len([game for game in history if game.get("minutes", 0) > 0])
  let games_played : ℕ := (p.history.filter fun g => g.minutes > 0).length
  -- ppg = total_points / max(1, games_played) if games_played > 0 else 0
  let ppg : ℚ := if games_played > 0 then total_points / ((max 1 games_played : ℕ) : ℚ) else 0
  let points_per_90 : ℚ := if minutes > 0 then (total_points / max 1 minutes) * 90 else 0
  let form ← train_form_value p.form
  -- recent_form: mean of total_points over history[-3:] (or over all when shorter)
  let history := p.history
  let recent_history := if history.length ≥ 3 then history.drop (history.length - 3) else history
  let recent_points : ℚ := (recent_history.map fun g => g.total_points).sum
  let recent_form : ℚ :=
    if recent_history ≠ [] then recent_points / (recent_history.length : ℚ) else 0
  let xG_approx : ℚ :=
    if games_played > 0 then p.goals_scored / ((max 1 games_played : ℕ) : ℚ) else 0
  let xA_approx : ℚ :=
    if games_played > 0 then p.assists / ((max 1 games_played : ℕ) : ℚ) else 0
  let selected_by_percent ← train_ownership_value p.selected_by_percent
  -- relative_team_strength = (team_strength / 1000) * 100
  let relative_team_strength : ℚ := (p.team_strength / 1000) * 100
  return { player_id := p.id
           name := p.first_name ++ " " ++ p.second_name
           team := p.team_name
           position := get_position_name p.element_type
           price := p.now_cost / 10
           form := form
           recent_form := recent_form
           points_per_game := ppg
           points_per_90 := points_per_90
           minutes := p.minutes
           goals_scored := p.goals_scored
           assists := p.assists
           clean_sheets := p.clean_sheets
           goals_conceded := p.goals_conceded
           own_goals := p.own_goals
           penalties_saved := p.penalties_saved
           penalties_missed := p.penalties_missed
           yellow_cards := p.yellow_cards
           red_cards := p.red_cards
           saves := p.saves
           bonus := p.bonus
           bps := p.bps
           influence := p.influence
           creativity := p.creativity
           threat := p.threat
           ict_index := p.ict_index
           xG := xG_approx
           xA := xA_approx
           ownership_percentage := selected_by_percent
           avg_fixture_difficulty := p.avg_fixture_difficulty
           team_strength := relative_team_strength
           team_strength_attack_home := p.team_strength_attack_home
           team_strength_attack_away := p.team_strength_attack_away
           team_strength_defence_home := p.team_strength_defence_home
           team_strength_defence_away := p.team_strength_defence_away }

/-! ## Dataset Synthesizer (`app/training/train_models.py`)

`prepare_prediction_dataset` computes the two targets column-wise; the
embedding works row by row, with the per-row standard-normal draw passed in
as `z` (the code fixes `np.random.seed(42)`, so `z` is a concrete vector at
runtime; the theorems hold for every value of `z`). -/

structure PredRow where
  points_per_game : ℚ
  form : ℚ
  avg_fixture_difficulty : ℚ
deriving Repr, DecidableEq

/-- The `next_gw_points` target of one row (train_models.py, lines 64-76):
baseline `points_per_game`, form adjustment with weight 0.2, fixture
adjustment with weight 0.15 around difficulty 2.5, clipped at 0. -/
def next_gw_points (r : PredRow) : ℚ :=
  let base := r.points_per_game
  let withForm := base + (r.form - r.points_per_game) * (2/10)
  let withFixture := withForm - (r.avg_fixture_difficulty - 5/2) * (15/100)
  max 0 withFixture

/-- The `captain_points` target of one row (train_models.py, lines 79-85):
double the clipped target, plus `z * (next_gw_points * 0.3)` noise, clipped
at 0. -/
def captain_points (r : PredRow) (z : ℚ) : ℚ :=
  let doubled := next_gw_points r * 2
  let variance := z * (next_gw_points r * (3/10))
  max 0 (doubled + variance)

/-- Row-level embedding of `prepare_prediction_dataset`: each input row is
assigned its `(next_gw_points, captain_points)` pair, the noise vector `z`
indexed positionally as `np.random.normal(0, 1, size=len(df))` is. -/
def prepare_prediction_dataset (rows : List PredRow) (z : ℕ → ℚ) : List (ℚ × ℚ) :=
  (List.range rows.length).filterMap fun i =>
    (rows.get? i).map fun r => (next_gw_points r, captain_points r (z i))

/-! ### `prepare_transfer_dataset` (train_models.py, lines 91-191) -/

/-- One row of the base training dataset as read by the pair synthesizer. -/
structure DfRow where
  player_id : ℤ
  name : String := ""
  position : String
  form : ℚ := 0
  points_per_game : ℚ := 0
  minutes : ℚ := 0
  goals_scored : ℚ := 0
  assists : ℚ := 0
  clean_sheets : ℚ := 0
  avg_fixture_difficulty : ℚ := 0
  ict_index : ℚ := 0
  bonus : ℚ := 0
  price : ℚ := 0
  team_strength : ℚ := 0
  next_gw_points : ℚ := 0

/-- One emitted transfer-pair record, with the fields the source dict builds. -/
structure TransferRow where
  player_in_id : ℤ
  player_out_id : ℤ
  player_in_name : String
  player_out_name : String
  position : String
  player_in_form : ℚ
  player_in_points_per_game : ℚ
  player_in_minutes : ℚ
  player_in_goals : ℚ
  player_in_assists : ℚ
  player_in_clean_sheets : ℚ
  player_in_fixture_difficulty : ℚ
  player_in_ict : ℚ
  player_in_bonus : ℚ
  player_in_price : ℚ
  player_out_form : ℚ
  player_out_points_per_game : ℚ
  player_out_minutes : ℚ
  player_out_goals : ℚ
  player_out_assists : ℚ
  player_out_clean_sheets : ℚ
  player_out_fixture_difficulty : ℚ
  player_out_ict : ℚ
  player_out_bonus : ℚ
  player_out_price : ℚ
  form_diff : ℚ
  price_diff : ℚ
  fixture_diff : ℚ
  team_strength_diff : ℚ
  points_delta : ℚ

/-- `position_weights.get(str(position), 0.25)` (train_models.py,
lines 116-123). -/
def position_weights (pos : String) : ℚ :=
  if pos = "GK" then 1/10
  else if pos = "DEF" then 35/100
  else if pos = "MID" then 35/100
  else if pos = "FWD" then 2/10
  else 25/100

/-- `int(num_pairs * position_weights.get(...))`: float truncation toward 0
of a non-negative product. -/
def position_pairs (num_pairs : ℕ) (pos : String) : ℕ :=
  (⌊(num_pairs : ℚ) * position_weights pos⌋).toNat

/-- The transfer record built for one (out, in) pair (train_models.py,
lines 144-184); `zNoise` is the row's `np.random.normal(0, 1) * 2` draw. -/
def make_transfer_row (position : String) (player_out player_in : DfRow) (zNoise : ℚ) :
    TransferRow :=
  let raw_point_diff := player_in.next_gw_points - player_out.next_gw_points
  let point_impact := raw_point_diff + zNoise
  { player_in_id := player_in.player_id
    player_out_id := player_out.player_id
    player_in_name := player_in.name
    player_out_name := player_out.name
    position := position
    player_in_form := player_in.form
    player_in_points_per_game := player_in.points_per_game
    player_in_minutes := player_in.minutes
    player_in_goals := player_in.goals_scored
    player_in_assists := player_in.assists
    player_in_clean_sheets := player_in.clean_sheets
    player_in_fixture_difficulty := player_in.avg_fixture_difficulty
    player_in_ict := player_in.ict_index
    player_in_bonus := player_in.bonus
    player_in_price := player_in.price
    player_out_form := player_out.form
    player_out_points_per_game := player_out.points_per_game
    player_out_minutes := player_out.minutes
    player_out_goals := player_out.goals_scored
    player_out_assists := player_out.assists
    player_out_clean_sheets := player_out.clean_sheets
    player_out_fixture_difficulty := player_out.avg_fixture_difficulty
    player_out_ict := player_out.ict_index
    player_out_bonus := player_out.bonus
    player_out_price := player_out.price
    form_diff := player_in.form - player_out.form
    price_diff := player_in.price - player_out.price
    fixture_diff := player_out.avg_fixture_difficulty - player_in.avg_fixture_difficulty
    team_strength_diff := player_in.team_strength - player_out.team_strength
    points_delta := point_impact }

/-- The pair loop for one position group (train_models.py, lines 129-186):
`for i in range(0, min(len(players) - 1, position_pairs))`, pairing
`players[i]` (out) with `players[i+1]` (in) and skipping pairs that share a
player id. -/
def make_pairs (position : String) (players : List DfRow) (quota : ℕ) (zNoise : ℕ → ℚ) :
    List TransferRow :=
  (List.range (min (players.length - 1) quota)).filterMap fun i =>
    match players.get? i, players.get? (i + 1) with
    | some player_out, some player_in =>
      if player_out.player_id = player_in.player_id then none
      else some (make_transfer_row position player_out player_in (zNoise i))
    | _, _ => none

/-- The position keys of `df.groupby('position')` (deduplicated position
values; pandas sorts them, which does not affect the per-group contents). -/
def group_keys (df : List DfRow) : List String :=
  (df.map fun r => r.position).dedup

/-- The rows of one `groupby` group. -/
def group_rows (df : List DfRow) (pos : String) : List DfRow :=
  df.filter fun r => r.position = pos

/-- Embedding of `prepare_transfer_dataset`.  `group.sample(n=..., replace=True)`
draws random rows of the group; the draw is passed in as `sample`, constrained
in the theorems to produce rows of the group it samples.  `zNoise` is the
per-position, per-pair normal draw. -/
def prepare_transfer_dataset (df : List DfRow) (num_pairs : ℕ)
    (sample : String → List DfRow) (zNoise : String → ℕ → ℚ) : List TransferRow :=
  (group_keys df).flatMap fun position =>
    make_pairs position (sample position) (position_pairs num_pairs position)
      (zNoise position)

/-! ## Ingestion Cache (`app/utils/fpl_data.py`)

Payloads are JSON documents; for the cache logic only identity and Python
truthiness matter, so a payload is a list of opaque items (a dict or list
document), truthy iff non-empty.  Time is integer seconds; `datetime.now()`
is the `now` argument of each call.  The upstream provider is the `upstream`
argument: `Except.error` models a raised `httpx.RequestError`. -/

def CACHE_EXPIRY : ℤ := 3600

/-- A JSON payload, opaque except for emptiness. -/
def Payload := List ℤ
deriving DecidableEq

/-- Embedding of the `FPLDataCache` state (fpl_data.py, lines 31-59). -/
structure FPLDataCache where
  bootstrap_data : Option Payload := none
  bootstrap_timestamp : Option ℤ := none
  fixtures_data : Option Payload := none
  fixtures_timestamp : Option ℤ := none
  player_details_cache : List (ℤ × Payload) := []
  player_details_timestamp : List (ℤ × ℤ) := []

/-- `is_bootstrap_expired` (fpl_data.py, lines 43-47). -/
def is_bootstrap_expired (cache : FPLDataCache) (now : ℤ) : Bool :=
  match cache.bootstrap_timestamp with
  | none => true
  | some ts => decide (now - ts > CACHE_EXPIRY)

/-- `is_player_details_expired` (fpl_data.py, lines 55-59). -/
def is_player_details_expired (cache : FPLDataCache) (player_id : ℤ) (now : ℤ) : Bool :=
  match cache.player_details_timestamp.lookup player_id with
  | none => true
  | some ts => decide (now - ts > CACHE_EXPIRY)

/-- Python truthiness of `data_cache.bootstrap_data` (None and empty payloads
are falsy). -/
def truthy_payload : Option Payload → Bool
  | none => false
  | some d => !d.isEmpty

/-- Result of one cache call: payload or raised retrieval error, the state
after the call, and how many upstream fetches the call made. -/
structure FetchResult where
  value : Except String Payload
  state : FPLDataCache
  upstream_calls : ℕ

/-- Embedding of `get_bootstrap_data` (fpl_data.py, lines 66-94): return the
cached payload when it is truthy and unexpired, otherwise perform one
upstream fetch, storing payload and timestamp on success and propagating the
error (cache untouched) on failure. -/
def get_bootstrap_data (cache : FPLDataCache) (now : ℤ) (upstream : Except String Payload) :
    FetchResult :=
  if truthy_payload cache.bootstrap_data && !is_bootstrap_expired cache now then
    { value := .ok (cache.bootstrap_data.getD []), state := cache, upstream_calls := 0 }
  else
    match upstream with
    | .ok payload =>
      { value := .ok payload
        state := { cache with bootstrap_data := some payload, bootstrap_timestamp := some now }
        upstream_calls := 1 }
    | .error e =>
      { value := .error e, state := cache, upstream_calls := 1 }

/-- Embedding of `get_player_detail_data` (fpl_data.py, lines 128-159):
the hit test is key membership (`player_id in data_cache.player_details_cache`),
not payload truthiness. -/
def get_player_detail_data (cache : FPLDataCache) (player_id : ℤ) (now : ℤ)
    (upstream : Except String Payload) : FetchResult :=
  match cache.player_details_cache.lookup player_id with
  | some payload =>
    if !is_player_details_expired cache player_id now then
      { value := .ok payload, state := cache, upstream_calls := 0 }
    else
      match upstream with
      | .ok fresh =>
        { value := .ok fresh
          state := { cache with
                       player_details_cache := (player_id, fresh) :: cache.player_details_cache
                       player_details_timestamp := (player_id, now) :: cache.player_details_timestamp }
          upstream_calls := 1 }
      | .error e => { value := .error e, state := cache, upstream_calls := 1 }
  | none =>
    match upstream with
    | .ok fresh =>
      { value := .ok fresh
        state := { cache with
                     player_details_cache := (player_id, fresh) :: cache.player_details_cache
                     player_details_timestamp := (player_id, now) :: cache.player_details_timestamp }
        upstream_calls := 1 }
    | .error e => { value := .error e, state := cache, upstream_calls := 1 }

/-! ## Tiered Model Loader (`train_ml_models.py`, lines 152-203)

Artifact presence on disk and loadability of a `PointsPredictor` are outside
this repository slice (`app/models/ml_models.py` is external), so they enter
as oracles: `fe path` says whether a file exists, `loadok pos tier` whether
`PointsPredictor(...).load()` returns True. -/

def tier_priority : List String := ["stacking", "elite", "premium", "basic"]

/-- The artifact files the loop requires before constructing a predictor:
the stacking tier probes a single specially-named file, every other tier
probes the model file and its companion scaler file. -/
def artifact_paths (pos tier : String) : List String :=
  if tier = "stacking" then
    ["points_predictor_" ++ pos ++ "_stacking_stacking.joblib"]
  else
    ["points_predictor_" ++ pos ++ "_" ++ tier ++ ".joblib",
     "points_predictor_" ++ pos ++ "_" ++ tier ++ "_scaler.joblib"]

/-- All required artifact files of a tier exist. -/
def artifact_present (fe : String → Bool) (pos tier : String) : Bool :=
  (artifact_paths pos tier).all fe

/-- The tier loop body for one position: walk `tier_priority`; whenever a
tier's files exist, store that tier's predictor (`predictors[pos] = ...`,
modelled as the accumulator), and stop as soon as one loads.  The Bool
records whether the stored predictor loaded. -/
def resolve_predictor_aux (fe : String → Bool) (loadok : String → Bool) (pos : String) :
    List String → Option (String × Bool) → Option (String × Bool)
  | [], acc => acc
  | tier :: rest, acc =>
    if artifact_present fe pos tier then
      if loadok tier then some (tier, true)
      else resolve_predictor_aux fe loadok pos rest (some (tier, false))
    else resolve_predictor_aux fe loadok pos rest acc

/-- The entry `predictors.get(pos)` after the loop over `tier_priority`:
`none` means no tier assigned a predictor, which is exactly the condition
under which the source logs its "No points predictor model found" warning. -/
def resolve_predictor (fe : String → Bool) (loadok : String → String → Bool) (pos : String) :
    Option (String × Bool) :=
  resolve_predictor_aux fe (loadok pos) pos tier_priority none

/-- The per-row prediction (train_ml_models.py, lines 181-202): with no
stored predictor the row keeps its own `points_per_game`; with a stored
predictor, prediction runs only when the predictor advertises feature names,
and any per-row failure falls back to `points_per_game`.  The external
predictor behaviour enters as the `has_feature_names` / `pred_out`
oracles. -/
def predict_row (res : Option (String × Bool)) (has_feature_names : Bool)
    (pred_out : Except String ℚ) (ppg : ℚ) : ℚ :=
  match res with
  | none => ppg
  | some _ =>
    if has_feature_names then
      match pred_out with
      | .ok v => v
      | .error _ => ppg
    else ppg

/-! ## Training Orchestrator: the transfer-training backup window
(`train_ml_models.py`, lines 206-223)

The file system is a partial map from path to contents.  Training writes
model artifacts, not dataset files, so the step's effect on the dataset
directory is fully captured by the copy / overwrite / restore operations. -/

def FileSys := String → Option String

/-- `fsWrite fs path c` is `fs` after writing contents `c` at `path`
(`df.to_csv(path)`). -/
def fsWrite (fs : FileSys) (path : String) (c : String) : FileSys :=
  fun p => if p = path then some c else fs p

/-- `shutil.copy2(src, dst)`: duplicate `src` at `dst` (raises if `src` is
missing; the orchestrator only reaches this line after reading `src`, and the
theorems assume it exists). -/
def fsCopy2 (fs : FileSys) (src dst : String) : FileSys :=
  match fs src with
  | some c => fsWrite fs dst c
  | none => fs

/-- `shutil.move(src, dst)`: `dst` receives the contents of `src` and `src`
disappears. -/
def fsMove (fs : FileSys) (src dst : String) : FileSys :=
  fun p =>
    if p = src then none
    else if p = dst then fs src
    else fs p

/-- Embedding of the transfer-training step: back up the main CSV, overwrite
it with the augmented dataset, run transfer training inside
`try ... finally`, and restore the backup in the `finally` block.  `trainOk`
says whether `train_transfer_models` returned or raised; the restore runs in
both cases, and a raise still propagates afterwards (the `Except` in the
result). -/
def transfer_training_step (fs : FileSys) (main_csv uid augmented : String) (trainOk : Bool) :
    FileSys × Except String Unit :=
  let backup_csv := main_csv ++ ".bak_" ++ uid
  let fs1 := fsCopy2 fs main_csv backup_csv
  let fs2 := fsWrite fs1 main_csv augmented
  -- try: train_transfer_models(...)  finally: shutil.move(backup_csv, main_csv)
  let fs3 := fsMove fs2 backup_csv main_csv
  (fs3, if trainOk then .ok () else .error "training raised")

/-! ## Team rating (`app/services/team_rating_service.py`)

`rate_team` is a `try` block ending in `return`, an `except` handler ending
in `return`, and a further block of scoring statements after the handler.
The embedding models the `try`/`except` part as a computation that either
returns a result (`Sum.inl`) or falls through with its local state
(`Sum.inr`); the trailing block runs only on fall-through. -/

structure RatedPlayer where
  name : String := ""
  position : String
  status : String := "a"
  price : ℚ := 0
  team : String := ""
  -- fixtures[0]["difficulty"] for next_n=1; `none` when the fixture list is
  -- empty or the lookup raised (both default to 3.0)
  fixture_difficulty : Option ℚ := none

/-- A returned rating dict.  The reachable return always carries a rating
string; the dict built by the trailing dead block has no "rating" key and
includes "suggestions" only when the score is below 70. -/
structure RateResult where
  score : ℤ
  suggestions : Option (List String)
  rating : Option String

/-- Count of players per position (`pos_counts`). -/
def pos_count (players : List RatedPlayer) (pos : String) : ℕ :=
  (players.filter fun p => p.position = pos).length

/-- `hard_fixture_count`: players whose next-fixture difficulty (default 3.0)
is at least 4. -/
def hard_fixture_count (players : List RatedPlayer) : ℕ :=
  (players.filter fun p => p.fixture_difficulty.getD 3 ≥ 4).length

/-- The `try` block of `rate_team` (team_rating_service.py, lines 18-71).
It computes balance, injury, fixture and value penalties in source order and
ends in `return` — hence always `Sum.inl`.  The fall-through state
`(score, suggestions, hard_fixture_count)` is what the trailing block would
read if control ever reached it. -/
def rate_team_try_block (players : List RatedPlayer) :
    Sum RateResult (ℤ × List String × ℕ) :=
  let score0 : ℤ := 100
  let sugg0 : List String := []
  -- 1. balance checks
  let (score1, sugg1) :=
    if pos_count players "GK" < 2 then (score0 - 10, sugg0 ++ ["Add a backup goalkeeper."])
    else (score0, sugg0)
  let (score2, sugg2) :=
    if pos_count players "DEF" < 4 then (score1 - 10, sugg1 ++ ["Increase defensive depth."])
    else (score1, sugg1)
  let (score3, sugg3) :=
    if pos_count players "MID" < 4 then (score2 - 10, sugg2 ++ ["Increase midfield depth."])
    else (score2, sugg2)
  let (score4, sugg4) :=
    if pos_count players "FWD" < 2 then (score3 - 10, sugg3 ++ ["Increase forward depth."])
    else (score3, sugg3)
  -- 2. injuries: -5 per player whose status is neither "a" nor "d"
  let injured := players.filter fun p => p.status ≠ "a" ∧ p.status ≠ "d"
  let score5 := score4 - 5 * injured.length
  let sugg5 := sugg4 ++ injured.map fun p => "Replace injured/unavailable player: " ++ p.name
  -- 3. fixtures
  let hard := hard_fixture_count players
  let (score6, sugg6) :=
    if hard > 6 then (score5 - 15, sugg5 ++ ["Too many players with difficult fixtures."])
    else (score5, sugg5)
  -- 4. value
  let total_value := (players.map fun p => p.price).sum
  let (score7, sugg7) :=
    if total_value < 90 then
      (score6 - 10, sugg6 ++ ["Consider upgrading to higher-value players."])
    else (score6, sugg6)
  -- return {...}
  Sum.inl
    { score := max 0 score7
      suggestions := some sugg7
      rating := some (if score7 ≥ 90 then "Excellent"
                      else if score7 ≥ 70 then "Good"
                      else "Needs Improvement") }

/-- The block of statements after the `except` handler
(team_rating_service.py, lines 78-96): a second hard-fixture penalty with
threshold 4, a per-team coverage penalty, and a clamp of the score into
[0, 100]. -/
def rate_team_trailing_block (players : List RatedPlayer)
    (st : ℤ × List String × ℕ) : RateResult :=
  let (score0, suggestions0, hard) := st
  let (score1, sugg1) :=
    if hard > 4 then
      (score0 - 10, suggestions0 ++ ["Too many players with tough upcoming fixtures."])
    else (score0, suggestions0)
  let teams := (players.map fun p => p.team).dedup
  let over := teams.filter fun t => (players.filter fun p => p.team = t).length > 3
  let score2 := score1 - 5 * over.length
  let sugg2 := sugg1 ++ over.map fun t =>
    "Too many players from " ++ t ++ " (>" ++
      toString (players.filter fun p => p.team = t).length ++ ")."
  let score3 := max 0 (min 100 score2)
  { score := score3
    suggestions := if score3 < 70 then some sugg2 else none
    rating := none }

/-- Embedding of `rate_team`: the `try` block, the `except` handler that
returns the mock rating (`excRaised` says whether the `try` block raised;
`mock` is the value of `mock_team_rating`), and the trailing block, which
executes only if the `try`/`except` statement falls through. -/
def rate_team (players : List RatedPlayer) (excRaised : Bool) (mock : RateResult) :
    RateResult :=
  let afterTryExcept : Sum RateResult (ℤ × List String × ℕ) :=
    if excRaised then Sum.inl mock else rate_team_try_block players
  match afterTryExcept with
  | Sum.inl r => r
  | Sum.inr st => rate_team_trailing_block players st

/-! Concrete oracles and rows used by witness and counterexample theorems. -/

/-- File-existence oracle for the C3 counterexample: only the basic tier's
model and scaler files for position gk exist on disk. -/
def c3_file_exists : String → Bool := fun path =>
  path == "points_predictor_gk_basic.joblib" ||
  path == "points_predictor_gk_basic_scaler.joblib"

/-- Load oracle for the C3 counterexample: every load attempt fails. -/
def c3_loadok : String → String → Bool := fun _ _ => false

/-- Concrete rows and base table for the C5 witness. -/
def c5_row_a : DfRow := { player_id := 1, name := "A", position := "MID" }

def c5_row_b : DfRow := { player_id := 2, name := "B", position := "MID" }

def c5_df : List DfRow := [c5_row_a, c5_row_b]

/-! ## Theorems -/

/-- C4: for every input row of the prediction dataset, the prediction target
equals `points_per_game + (form − points_per_game)·0.2 −
(avg_fixture_difficulty − 2.5)·0.15` clipped below at 0, and the captain
target equals twice the clipped prediction target plus noise distributed as
`z · (0.3 · target)` for the row's standard-normal draw `z`, clipped below at
0; hence both targets are non-negative for every combination of form,
fixture difficulty and points-per-game and every noise value. -/
theorem C4_prediction_targets :
    (∀ (r : PredRow) (z : ℚ),
      next_gw_points r =
        max 0 (r.points_per_game + (r.form - r.points_per_game) * (2/10)
                - (r.avg_fixture_difficulty - 5/2) * (15/100)) ∧
      captain_points r z = max 0 (next_gw_points r * 2 + z * (next_gw_points r * (3/10))) ∧
      0 ≤ next_gw_points r ∧ 0 ≤ captain_points r z) ∧
    (∀ (rows : List PredRow) (z : ℕ → ℚ),
      ∀ pair ∈ prepare_prediction_dataset rows z, 0 ≤ pair.1 ∧ 0 ≤ pair.2) := by
  constructor
  · intro r z
    exact ⟨rfl, rfl, le_max_left 0 _, le_max_left 0 _⟩
  · intro rows z pair hpair
    simp only [prepare_prediction_dataset, List.mem_filterMap, List.mem_range,
      Option.map_eq_some'] at hpair
    obtain ⟨i, _, r, _, rfl⟩ := hpair
    exact ⟨le_max_left 0 _, le_max_left 0 _⟩

/-- Witness for C4 at a concrete row. -/
theorem C4_prediction_targets_check :
    0 ≤ (next_gw_points ⟨2, 2, 5/2⟩, captain_points ⟨2, 2, 5/2⟩ 0).1 ∧
    0 ≤ (next_gw_points ⟨2, 2, 5/2⟩, captain_points ⟨2, 2, 5/2⟩ 0).2 :=
  C4_prediction_targets.2 [⟨2, 2, 5/2⟩] (fun _ => 0)
    (next_gw_points ⟨2, 2, 5/2⟩, captain_points ⟨2, 2, 5/2⟩ 0)
    (by simp [prepare_prediction_dataset])

/-- C9: the block of scoring logic positioned after the `try`/`except`
statement of `rate_team` is unreachable: the `try` block always ends in a
`return` (`Sum.inl`), so for every team the returned rating is the reachable
path's result, or the mock fallback when the `try` block raises; the trailing
coverage-penalty and clamp logic never executes. -/
theorem C9_dead_code_unreachable (players : List RatedPlayer) (excRaised : Bool)
    (mock : RateResult) :
    ∃ r : RateResult, rate_team_try_block players = Sum.inl r ∧
      rate_team players excRaised mock = (if excRaised then mock else r) :=
  ⟨_, rfl, by cases excRaised <;> rfl⟩

/-- C10: `validate_features` is idempotent, because every value it outputs is
a finite float (None, NaN, infinite and unconvertible values all become 0.0)
and finite floats are fixed points of the cleaning step. -/
theorem C10_validate_idempotent (f : List (String × FVal)) :
    validate_features (validate_features f) = validate_features f ∧
    ∀ kv ∈ validate_features f, ∃ q : ℚ, kv.2 = FVal.num q := by
  constructor
  · induction f with
    | nil => rfl
    | cons kv rest ih =>
      simp only [validate_features, List.map_cons] at ih ⊢
      rw [ih]
      rfl
  · intro kv hkv
    simp only [validate_features, List.mem_map] at hkv
    obtain ⟨a, _, rfl⟩ := hkv
    exact ⟨validate_value a.2, rfl⟩

/-- Witness for C10 at a concrete feature dict. -/
theorem C10_validate_idempotent_check :
    validate_features (validate_features [("price", FVal.nan), ("form", FVal.vnone)]) =
      validate_features [("price", FVal.nan), ("form", FVal.vnone)] ∧
    ∃ q : ℚ, (("price", FVal.num 0) : String × FVal).2 = FVal.num q :=
  ⟨(C10_validate_idempotent [("price", FVal.nan), ("form", FVal.vnone)]).1,
   (C10_validate_idempotent [("price", FVal.nan), ("form", FVal.vnone)]).2
     ("price", FVal.num 0) (by simp [validate_features, validate_value])⟩

/-- C1: the transfer-training step backs the main dataset file up before
overwriting it and restores it in a `finally` block, so after the step the
main file's contents equal its pre-run contents and the backup file is gone,
on the success path and on the path where transfer training raises
(the raise still propagates after the restore). -/
theorem C1_dataset_restored (fs : FileSys) (main_csv uid augmented orig : String)
    (trainOk : Bool) (h : fs main_csv = some orig) :
    (transfer_training_step fs main_csv uid augmented trainOk).1 main_csv = some orig ∧
    (transfer_training_step fs main_csv uid augmented trainOk).1
      (main_csv ++ ".bak_" ++ uid) = none ∧
    (transfer_training_step fs main_csv uid augmented trainOk).2 =
      (if trainOk then Except.ok () else Except.error "training raised") := by
  have hne : main_csv ++ ".bak_" ++ uid ≠ main_csv := by
    intro heq
    have hlen := congrArg String.length heq
    have h5 : (".bak_" : String).length = 5 := rfl
    simp [String.length_append, h5] at hlen
    omega
  refine ⟨?_, ?_, rfl⟩
  · simp only [transfer_training_step, fsMove, fsCopy2, fsWrite, h]
    simp [hne, Ne.symm hne]
  · simp only [transfer_training_step, fsMove, fsCopy2, fsWrite, h]
    simp

/-- Witness for C1 at a concrete file system, on the raising path. -/
theorem C1_dataset_restored_check :
    (transfer_training_step
        (fun p => if p = "main/data.csv" then some "orig" else none)
        "main/data.csv" "42_7" "augmented" false).1 "main/data.csv" = some "orig" ∧
    (transfer_training_step
        (fun p => if p = "main/data.csv" then some "orig" else none)
        "main/data.csv" "42_7" "augmented" false).1 ("main/data.csv" ++ ".bak_" ++ "42_7") = none ∧
    (transfer_training_step
        (fun p => if p = "main/data.csv" then some "orig" else none)
        "main/data.csv" "42_7" "augmented" false).2 =
      (if false then Except.ok () else Except.error "training raised") :=
  C1_dataset_restored (fun p => if p = "main/data.csv" then some "orig" else none)
    "main/data.csv" "42_7" "augmented" "orig" false (by simp)

/-- Helper: `float("0.0")` parses to 0. -/
lemma pyFloat_zero_str : pyFloat "0.0" = some 0 := by
  have h : pyFloatParsed "0.0" = some (false, 0, 0, 1) := by decide
  simp [pyFloat, h, decimalValue]

/-- Helper: the comma-to-dot substitution turns `"12,5"` into a string that
`float` parses as 12.5. -/
lemma pyFloat_comma_example : pyFloat (pyReplace "12,5" ',' '.') = some (25/2) := by
  have h : pyFloatParsed (pyReplace "12,5" ',' '.') = some (false, 12, 5, 1) := by decide
  simp [pyFloat, h, decimalValue]
  norm_num

/-- Helper: looking a name up in a reindexed row yields the source value
(defaulted to 0) for requested names and nothing for unrequested ones. -/
lemma lookup_reindex_row (features : List (String × ℚ)) (target : List String) (n : String) :
    (reindex_row features target).lookup n =
      if n ∈ target then some ((features.lookup n).getD 0) else none := by
  induction target with
  | nil => simp [reindex_row]
  | cons m rest ih =>
    by_cases hm : n = m
    · subst hm
      simp [reindex_row, List.lookup]
    · simp only [reindex_row, List.map_cons, List.lookup] at ih ⊢
      rw [show ((n == m) = false) from beq_eq_false_iff_ne.2 hm]
      simp only [ih, List.mem_cons]
      by_cases hr : n ∈ rest <;> simp [hr, hm]

/-- Helper: a reindexed row's names are exactly the target schema, in
order. -/
lemma map_fst_reindex_row (features : List (String × ℚ)) (target : List String) :
    (reindex_row features target).map Prod.fst = target := by
  induction target with
  | nil => rfl
  | cons m rest ih =>
    simp only [reindex_row, List.map_cons] at ih ⊢
    rw [ih]

/-- C6 counterexample: the claim fails at the empty target schema.  The guard
`if model_feature_names:` in `prepare_features_for_model` tests Python
truthiness, so an empty schema list skips reindexing entirely: the function
returns the full 31-field feature dict instead of conforming to the empty
schema (its name list is not the empty target). -/
theorem C6_empty_schema_counterexample :
    prepare_features_for_model {} (some []) =
      features_to_list (convert_player_to_features {}) ∧
    (prepare_features_for_model {} (some [])).map Prod.fst ≠ ([] : List String) := by
  refine ⟨rfl, ?_⟩
  simp [prepare_features_for_model, features_to_list]

/-- C6 (amended): conforming features to any NON-EMPTY target schema never
fails: the output holds exactly the target schema's names in the target
order, requested names carry the input's value defaulted to 0.0 when absent,
and input fields not in the target schema are dropped.  With an empty schema
list the truthiness guard of `prepare_features_for_model` skips reindexing
and the full feature dict is returned unchanged.  The DataFrame path of
`standardize_player_features_for_prediction` applies `reindex` with no guard
and conforms exactly for every schema, the empty one included. -/
theorem C6_reindex_schema (features : List (String × ℚ)) (target : List String) (n : String)
    (p : PlayerData) (ps : List PlayerData) :
    ((reindex_row features target).map Prod.fst = target) ∧
    (n ∈ target →
      (reindex_row features target).lookup n = some ((features.lookup n).getD 0)) ∧
    (n ∈ target → features.lookup n = none →
      (reindex_row features target).lookup n = some 0) ∧
    (n ∉ target → (reindex_row features target).lookup n = none) ∧
    (target ≠ [] →
      prepare_features_for_model p (some target) =
        reindex_row (features_to_list (convert_player_to_features p)) target) ∧
    (prepare_features_for_model p (some []) =
      features_to_list (convert_player_to_features p)) ∧
    (∀ row ∈ standardize_player_features_for_prediction ps target,
      row.map Prod.fst = target) := by
  refine ⟨map_fst_reindex_row features target, ?_, ?_, ?_, ?_, rfl, ?_⟩
  · intro hmem
    rw [lookup_reindex_row, if_pos hmem]
  · intro hmem hnone
    rw [lookup_reindex_row, if_pos hmem, hnone]
    rfl
  · intro hmem
    rw [lookup_reindex_row, if_neg hmem]
  · intro hne
    simp [prepare_features_for_model, List.isEmpty_iff, hne]
  · intro row hrow
    simp only [standardize_player_features_for_prediction, List.map_map, List.mem_map] at hrow
    obtain ⟨q, _, rfl⟩ := hrow
    exact map_fst_reindex_row _ _

/-- Witness for C6: a non-empty schema with an unknown name fills it with 0,
and the single-record path conforms to that schema. -/
theorem C6_reindex_schema_check :
    (reindex_row (features_to_list (convert_player_to_features {})) ["xG", "unknown_field"]).lookup
        "unknown_field" = some 0 ∧
    prepare_features_for_model {} (some ["xG", "unknown_field"]) =
      reindex_row (features_to_list (convert_player_to_features {})) ["xG", "unknown_field"] :=
  ⟨(C6_reindex_schema (features_to_list (convert_player_to_features {}))
      ["xG", "unknown_field"] "unknown_field" {} []).2.2.1 (by simp) (by rfl),
   (C6_reindex_schema (features_to_list (convert_player_to_features {}))
      ["xG", "unknown_field"] "unknown_field" {} []).2.2.2.2.1 (by simp)⟩

/-- C2 counterexample: the claim's inference-path formula
(`games_played = ⌊minutes/60⌋`, with points_per_game 0 when that is 0) fails
on the code: a record with minutes = 30 and total_points = 5 has
`⌊30/60⌋ = 0`, yet `convert_player_to_features` yields points_per_game = 5,
because the code computes `games_played = max(1, minutes // 60)`, which is
never 0. -/
theorem C2_counterexample :
    (⌊(30:ℚ)/60⌋ = 0) ∧
    (convert_player_to_features { minutes := 30, total_points := 5 }).points_per_game = 5 := by
  have h30 : ⌊(30:ℚ)/60⌋ = 0 := by norm_num
  refine ⟨h30, ?_⟩
  simp only [convert_player_to_features, h30]
  norm_num

/-- C2 (amended): at inference time `games_played = max(1, ⌊minutes/60⌋)` is
at least 1, so points_per_game is always `total_points / max(1, ⌊minutes/60⌋)`
(never forced to 0); at training time, with full history available,
games_played is the count of history entries with positive minutes and
points_per_game is `total_points / max(1, games_played)`, 0 when that count is
0, exactly as the claim states. -/
theorem C2_points_per_game_amended (p : PlayerData) (e : ExtendedPlayerData)
    (f : TrainFeatures) (h : process_player_features e = Except.ok f) :
    ((convert_player_to_features p).points_per_game =
      p.total_points / ((max 1 ⌊p.minutes / 60⌋ : ℤ) : ℚ)) ∧
    (f.points_per_game =
      if 0 < (e.history.filter fun g => g.minutes > 0).length then
        e.total_points / ((max 1 (e.history.filter fun g => g.minutes > 0).length : ℕ) : ℚ)
      else 0) := by
  constructor
  · have h1 : (0:ℤ) < max 1 ⌊p.minutes / 60⌋ := lt_of_lt_of_le one_pos (le_max_left _ _)
    simp only [convert_player_to_features]
    rw [if_pos h1, max_eq_right (le_max_left 1 ⌊p.minutes / 60⌋)]
  · cases hf : train_form_value e.form with
    | error err =>
      rw [process_player_features, hf] at h
      simp [Bind.bind, Except.bind] at h
    | ok fv =>
      cases ho : train_ownership_value e.selected_by_percent with
      | error err =>
        rw [process_player_features, hf, ho] at h
        simp [Bind.bind, Except.bind] at h
      | ok ov =>
        rw [process_player_features, hf, ho] at h
        simp only [Bind.bind, Except.bind, pure, Except.pure, Except.ok.injEq] at h
        subst h
        rfl

/-- Witness for C2 at a concrete training record with one played game. -/
theorem C2_points_per_game_check :
    (convert_player_to_features { minutes := 90, total_points := 6 }).points_per_game =
      (6:ℚ) / ((max 1 ⌊(90:ℚ) / 60⌋ : ℤ) : ℚ) :=
  (C2_points_per_game_amended { minutes := 90, total_points := 6 } {}
    { player_id := 0, name := " ", team := "Unknown", position := "Unknown",
      price := 0, form := 0, recent_form := 0, points_per_game := 0, points_per_90 := 0,
      minutes := 0, goals_scored := 0, assists := 0, clean_sheets := 0, goals_conceded := 0,
      own_goals := 0, penalties_saved := 0, penalties_missed := 0, yellow_cards := 0,
      red_cards := 0, saves := 0, bonus := 0, bps := 0, influence := 0, creativity := 0,
      threat := 0, ict_index := 0, xG := 0, xA := 0, ownership_percentage := 0,
      avg_fixture_difficulty := 3, team_strength := 100, team_strength_attack_home := 0,
      team_strength_attack_away := 0, team_strength_defence_home := 0,
      team_strength_defence_away := 0 }
    (by
      have hrep : pyReplace "0.0" ',' '.' = "0.0" := by decide
      simp only [process_player_features, train_form_value, train_ownership_value, hrep,
        pyFloat_zero_str]
      simp only [Bind.bind, Except.bind, pure, Except.pure, Except.ok.injEq]
      simp [TrainFeatures.mk.injEq, get_position_name])).1

/-- C7 counterexample: in the training-data extractor a parse failure of
`selected_by_percent` does NOT resolve to 0.0 at the field level: the `float`
coercion on line 118 of training_data.py has no try/except, so the record
with `selected_by_percent = "abc"` makes `process_player_features` raise
`ValueError` to its caller (where the per-player loop drops the whole
record). -/
theorem C7_ownership_counterexample :
    process_player_features { selected_by_percent := RawVal.str "abc" } =
      Except.error "ValueError" := by
  have habc : pyFloat (pyReplace "abc" ',' '.') = none := by
    have h : pyFloatParsed (pyReplace "abc" ',' '.') = none := by decide
    simp [pyFloat, h]
  have hrep : pyReplace "0.0" ',' '.' = "0.0" := by decide
  simp [process_player_features, train_form_value, train_ownership_value, hrep,
    pyFloat_zero_str, habc, Bind.bind, Except.bind]

/-- C7 (amended): whenever ownership is extracted from a string, ',' is
substituted with '.' before float coercion (so "12,5" yields 12.5 in both
paths); but only the standardizer resolves a parse failure to the default 0.0
at the field level — in the training-data extractor the failure propagates as
an exception to the caller. -/
theorem C7_ownership_amended (s : String) (p : PlayerData) (e : ExtendedPlayerData) :
    ((convert_player_to_features
        { p with selected_by_percent := RawVal.str s }).ownership_percentage =
      (pyFloat (pyReplace s ',' '.')).getD 0) ∧
    ((convert_player_to_features
        { p with selected_by_percent := RawVal.str "12,5" }).ownership_percentage = 25/2) ∧
    (train_ownership_value (RawVal.str "12,5") = Except.ok (25/2)) ∧
    (pyFloat (pyReplace s ',' '.') = none → e.selected_by_percent = RawVal.str s →
      (∃ q, train_form_value e.form = Except.ok q) →
      process_player_features e = Except.error "ValueError") := by
  refine ⟨rfl, ?_, ?_, ?_⟩
  · simp [convert_player_to_features, pyFloat_comma_example]
  · simp [train_ownership_value, pyFloat_comma_example]
  · intro hnone hsel hform
    obtain ⟨q, hq⟩ := hform
    simp [process_player_features, hq, train_ownership_value, hsel, hnone,
      Bind.bind, Except.bind]

/-- Witness for C7 at a concrete unparseable ownership string. -/
theorem C7_ownership_amended_check :
    process_player_features { selected_by_percent := RawVal.str "N/A" } =
      Except.error "ValueError" :=
  (C7_ownership_amended "N/A" {} { selected_by_percent := RawVal.str "N/A" }).2.2.2
    (by
      have h : pyFloatParsed (pyReplace "N/A" ',' '.') = none := by decide
      simp [pyFloat, h])
    rfl
    ⟨0, by simp [train_form_value, pyFloat_zero_str]⟩

/-- Helper: the tier loop leaves no predictor stored iff it started with none
stored and no tier's artifact files exist. -/
lemma resolve_aux_none_iff (fe : String → Bool) (lk : String → Bool) (pos : String)
    (l : List String) (acc : Option (String × Bool)) :
    resolve_predictor_aux fe lk pos l acc = none ↔
      (acc = none ∧ ∀ t ∈ l, artifact_present fe pos t = false) := by
  induction l generalizing acc with
  | nil => simp [resolve_predictor_aux]
  | cons t rest ih =>
    simp only [resolve_predictor_aux]
    by_cases hp : artifact_present fe pos t
    · rw [if_pos hp]
      by_cases hl : lk t
      · rw [if_pos hl]
        simp [hp]
      · rw [if_neg hl, ih]
        simp [hp]
    · rw [if_neg hp, ih]
      simp [hp]

/-- Helper: starting from a not-loaded accumulator, the tier loop ends on a
loaded predictor of tier `t` iff `t` is the first tier in the list whose
artifact files exist and whose load succeeds. -/
lemma resolve_aux_loaded_iff (fe : String → Bool) (lk : String → Bool) (pos t : String)
    (l : List String) (acc : Option (String × Bool))
    (hacc : ∀ s b, acc = some (s, b) → b = false) :
    resolve_predictor_aux fe lk pos l acc = some (t, true) ↔
      l.find? (fun u => artifact_present fe pos u && lk u) = some t := by
  induction l generalizing acc with
  | nil =>
    simp only [resolve_predictor_aux, List.find?]
    constructor
    · intro h
      exact absurd (hacc t true h) (by simp)
    · intro h
      exact absurd h (by simp)
  | cons u rest ih =>
    simp only [resolve_predictor_aux]
    by_cases hp : artifact_present fe pos u
    · rw [if_pos hp]
      by_cases hl : lk u
      · rw [if_pos hl, List.find?_cons_of_pos _ (by simp [hp, hl])]
        simp
      · rw [if_neg hl, List.find?_cons_of_neg _ (by simp [hl])]
        exact ih (some (u, false)) (fun s b h => by
          injection h with h2
          injection h2 with _ hb
          exact hb.symm)
    · rw [if_neg hp, List.find?_cons_of_neg _ (by simp [hp])]
      exact ih acc hacc

/-- C3 (amended): the resolution loop stores, for each position, the first
tier in the fixed order stacking → elite → premium → basic whose artifact
files exist and load successfully, attempting no further tier; but the
"no model" warning condition (no predictor stored) is equivalent to NO tier's
artifact files existing — when an artifact exists and merely fails to load,
an unloaded predictor stays stored and no warning is logged.  Rows whose
position stored no predictor fall back to their own points_per_game. -/
theorem C3_tier_resolution_amended (fe : String → Bool) (loadok : String → String → Bool)
    (pos t : String) (has_fn : Bool) (po : Except String ℚ) (ppg : ℚ) :
    (resolve_predictor fe loadok pos = some (t, true) ↔
      tier_priority.find? (fun u => artifact_present fe pos u && loadok pos u) = some t) ∧
    (resolve_predictor fe loadok pos = none ↔
      ∀ u ∈ tier_priority, artifact_present fe pos u = false) ∧
    (resolve_predictor fe loadok pos = none →
      predict_row (resolve_predictor fe loadok pos) has_fn po ppg = ppg) := by
  refine ⟨resolve_aux_loaded_iff fe (loadok pos) pos t tier_priority none
      (fun s b h => by exact absurd h (by simp)), ?_, ?_⟩
  · rw [resolve_predictor, resolve_aux_none_iff]
    simp
  · intro h
    rw [h]
    rfl

/-- Witness for C3 with no artifact files at all: fallback to the row's own
points_per_game. -/
theorem C3_tier_resolution_check :
    predict_row (resolve_predictor (fun _ => false) (fun _ _ => false) "gk") true
      (Except.ok 5) 7 = 7 :=
  (C3_tier_resolution_amended (fun _ => false) (fun _ _ => false) "gk" "basic" true
    (Except.ok 5) 7).2.2 (by decide)

/-- C3 counterexample: with only the basic artifact present and its load
failing, no tier loads for position gk, yet the loop leaves an unloaded
basic predictor stored — the condition for the fallback warning
(`pos not in predictors`, i.e. resolution = none) is false, so contrary to
the claim no warning is recorded for this position. -/
theorem C3_warning_counterexample :
    tier_priority.find?
        (fun u => artifact_present c3_file_exists "gk" u && c3_loadok "gk" u) = none ∧
    resolve_predictor c3_file_exists c3_loadok "gk" = some ("basic", false) := by
  refine ⟨by decide, by decide⟩

/-- C8 counterexample: the bootstrap cache-hit test is payload TRUTHINESS
(`if data_cache.bootstrap_data and not expired`), not entry existence.  After
the upstream returns an empty payload, a second fetch 10 seconds later —
well within the one-hour TTL — performs a second upstream call, contrary to
the claim that an entry fetched again within its TTL window needs no second
upstream fetch. -/
theorem C8_cache_counterexample :
    ((get_bootstrap_data {} 0 (Except.ok [])).state.bootstrap_data = some []) ∧
    ((get_bootstrap_data {} 0 (Except.ok [])).state.bootstrap_timestamp = some 0) ∧
    ((10:ℤ) - 0 ≤ CACHE_EXPIRY) ∧
    (get_bootstrap_data (get_bootstrap_data {} 0 (Except.ok [])).state 10
        (Except.ok [])).upstream_calls = 1 := by
  refine ⟨rfl, rfl, by decide, rfl⟩

/-- C8 (amended): a bootstrap entry with a NON-EMPTY payload re-fetched
within the one-hour TTL is returned with no upstream call; after TTL expiry
one upstream re-fetch occurs, storing the new payload with the current
timestamp; a cached player-detail entry (any payload — the hit test there is
key membership) is returned within its TTL with no upstream call; and
player-detail expiry is independent per player key: a fetch for one player
leaves every other player's cached payload and timestamp unchanged. -/
theorem C8_cache_amended (cache : FPLDataCache) (now ts : ℤ) (d e : Payload)
    (u : Except String Payload) (pid pid2 : ℤ) :
    (cache.bootstrap_data = some d → d ≠ [] → cache.bootstrap_timestamp = some ts →
      now - ts ≤ CACHE_EXPIRY →
      get_bootstrap_data cache now u =
        { value := .ok d, state := cache, upstream_calls := 0 }) ∧
    (cache.bootstrap_timestamp = some ts → now - ts > CACHE_EXPIRY → u = .ok e →
      get_bootstrap_data cache now u =
        { value := .ok e
          state := { cache with bootstrap_data := some e, bootstrap_timestamp := some now }
          upstream_calls := 1 }) ∧
    (cache.player_details_cache.lookup pid = some e →
      cache.player_details_timestamp.lookup pid = some ts → now - ts ≤ CACHE_EXPIRY →
      get_player_detail_data cache pid now u =
        { value := .ok e, state := cache, upstream_calls := 0 }) ∧
    (pid2 ≠ pid →
      (get_player_detail_data cache pid now u).state.player_details_cache.lookup pid2 =
        cache.player_details_cache.lookup pid2 ∧
      (get_player_detail_data cache pid now u).state.player_details_timestamp.lookup pid2 =
        cache.player_details_timestamp.lookup pid2) := by
  refine ⟨?_, ?_, ?_, ?_⟩
  · intro hd hne hts hfresh
    have htr : truthy_payload cache.bootstrap_data = true := by
      rw [hd]
      simpa [truthy_payload] using hne
    have hexp : is_bootstrap_expired cache now = false := by
      simp [is_bootstrap_expired, hts]
      omega
    simp only [get_bootstrap_data, htr, hexp]
    simp [hd]
  · intro hts hexp hu
    have hexp2 : is_bootstrap_expired cache now = true := by
      simp [is_bootstrap_expired, hts]
      omega
    simp [get_bootstrap_data, hexp2, hu]
  · intro hc hts hfresh
    have hexp : is_player_details_expired cache pid now = false := by
      simp [is_player_details_expired, hts]
      omega
    simp [get_player_detail_data, hc, hexp]
  · intro hne
    have hb : (pid2 == pid) = false := beq_eq_false_iff_ne.2 hne
    unfold get_player_detail_data
    cases hc : cache.player_details_cache.lookup pid with
    | some payload =>
      by_cases hexp : is_player_details_expired cache pid now
      · simp only [hexp, Bool.not_true]
        cases u with
        | ok fresh => simp [List.lookup, hb]
        | error err => simp
      · simp [hexp]
    | none =>
      cases u with
      | ok fresh => simp [List.lookup, hb]
      | error err => simp

/-- Witness for C8 at a concrete cache hit within the TTL. -/
theorem C8_cache_amended_check :
    get_bootstrap_data
        { bootstrap_data := some [1], bootstrap_timestamp := some 0 } 100 (Except.ok [2]) =
      { value := .ok [1]
        state := { bootstrap_data := some [1], bootstrap_timestamp := some 0 }
        upstream_calls := 0 } :=
  (C8_cache_amended { bootstrap_data := some [1], bootstrap_timestamp := some 0 }
    100 0 [1] [] (Except.ok [2]) 0 0).1 rfl (by decide) rfl (by decide)

/-- C5: every emitted transfer-pair record has distinct in-player and
out-player identifiers (the loop skips same-id pairs), and both players of
the pair are rows of the same position group — each pair is drawn from one
`groupby('position')` group, so both carry the record's position. -/
theorem C5_transfer_pair_invariant (df : List DfRow) (num_pairs : ℕ)
    (sample : String → List DfRow) (zNoise : String → ℕ → ℚ)
    (hs : ∀ pos, ∀ r ∈ sample pos, r ∈ group_rows df pos) :
    ∀ t ∈ prepare_transfer_dataset df num_pairs sample zNoise,
      t.player_in_id ≠ t.player_out_id ∧
      ∃ pin pout : DfRow, pin ∈ df ∧ pout ∈ df ∧
        pin.player_id = t.player_in_id ∧ pout.player_id = t.player_out_id ∧
        pin.position = t.position ∧ pout.position = t.position := by
  intro t ht
  rw [prepare_transfer_dataset, List.mem_flatMap] at ht
  obtain ⟨pos, hpos, htp⟩ := ht
  rw [make_pairs, List.mem_filterMap] at htp
  obtain ⟨i, hi, hf⟩ := htp
  cases hg1 : (sample pos).get? i with
  | none => rw [hg1] at hf; simp at hf
  | some pout =>
    cases hg2 : (sample pos).get? (i + 1) with
    | none => rw [hg1, hg2] at hf; simp at hf
    | some pin =>
      rw [hg1, hg2] at hf
      by_cases hid : pout.player_id = pin.player_id
      · simp [hid] at hf
      · simp only [hid, if_false, Option.some.injEq] at hf
        subst hf
        have hpo2 := hs pos pout (List.get?_mem hg1)
        have hpi2 := hs pos pin (List.get?_mem hg2)
        simp only [group_rows, List.mem_filter, decide_eq_true_eq] at hpo2 hpi2
        exact ⟨fun h => hid h.symm, pin, pout, hpi2.1, hpo2.1, rfl, rfl, hpi2.2, hpo2.2⟩

/-- Witness for C5 at a concrete two-player position group. -/
theorem C5_transfer_pair_invariant_check :
    (make_transfer_row "MID" c5_row_a c5_row_b 0).player_in_id ≠
      (make_transfer_row "MID" c5_row_a c5_row_b 0).player_out_id :=
  (C5_transfer_pair_invariant c5_df 10 (group_rows c5_df) (fun _ _ => 0)
    (fun _ _ h => h)
    (make_transfer_row "MID" c5_row_a c5_row_b 0)
    (by
      have hq : position_pairs 10 "MID" = 3 := by
        have h1 : ("MID" : String) ≠ "GK" := by decide
        norm_num [position_pairs, position_weights, h1]
        rfl
      have hk : group_keys c5_df = ["MID"] := by
        simp [group_keys, c5_df, c5_row_a, c5_row_b, List.dedup_cons_of_mem,
          List.dedup_cons_of_not_mem]
      have hg : group_rows c5_df "MID" = [c5_row_a, c5_row_b] := by
        simp [group_rows, c5_df, c5_row_a, c5_row_b]
      simp only [prepare_transfer_dataset, hk, hq, hg, List.flatMap_cons, List.flatMap_nil,
        List.append_nil, make_pairs]
      simp [c5_row_a, c5_row_b, List.range_succ])).1

end FPL
